import Mathlib

/-!
# Verification of the Qwen3-TTS CLI wrapper (`qwen_tts.py`)

A shallow embedding of the repository's own logic: the mode→model registry,
the text-or-file input resolver, the platform check, the audio-chunk
aggregation pipeline, and the three CLI command surfaces (`clone`, `design`,
`custom`).

Modelling conventions:
* Audio samples are opaque values; the script never computes with them, only
  concatenates, so we represent a sample as `Int` and a chunk as `List Int`.
* The filesystem is a map from normalized path strings to file data; POSIX
  path normalization follows CPython `pathlib.PurePosixPath` (empty and `"."`
  components dropped, `".."` kept, trailing slashes removed).
* Console output, model loading and the generation call are recorded as an
  event trace so that ordering properties ("X happens before Y", "Z never
  happens") can be stated.
* The external generator `model.generate(**kwargs)` is an input to the
  embedding: a finite list of yielded chunks plus an optional exception
  raised after the last yielded chunk.
* `typer.Exit(1)` is modelled as the result `ExitResult.exit 1`; an exception
  propagating out of the wrapper is `ExitResult.exn`.
* Wall-clock times are abstract: `startTimer` / `stopTimer` appear only as
  trace events.  File contents are abstract strings, so reads always succeed
  (OS-level I/O and text-decoding failures are outside the embedding).
-/

namespace QwenTTS

/-- Sample rate constant `SAMPLE_RATE = 24_000` from the script. -/
def SAMPLE_RATE : Nat := 24000

/-! ## POSIX path semantics (CPython `pathlib.PurePosixPath`) -/

/-- Split a character list on `/`, keeping empty segments
(mirrors `str.split('/')`). -/
def splitSlash : List Char → List (List Char)
  | [] => [[]]
  | c :: cs =>
      match splitSlash cs with
      | [] => [[]]
      | h :: t => if c = '/' then [] :: h :: t else (c :: h) :: t

/-- A path component is kept iff it is non-empty and not `"."`
(pathlib drops empty and `"."` components while parsing). -/
def keepComponent (comp : List Char) : Bool :=
  !comp.isEmpty && !(comp == ['.'])

/-- The retained components of a path string. -/
def pathComponents (value : String) : List (List Char) :=
  (splitSlash value.toList).filter keepComponent

/-- The root of a POSIX path: `"//"` for exactly two leading slashes,
`"/"` for one or three-plus, `""` for a relative path. -/
def pathRoot (value : String) : String :=
  match value.toList with
  | '/' :: '/' :: '/' :: _ => "/"
  | '/' :: '/' :: _ => "//"
  | '/' :: _ => "/"
  | _ => ""

/-- `str(pathlib.PurePosixPath(value))`: root plus `/`-joined components,
or `"."` when both are empty. -/
def normalizePath (value : String) : String :=
  let comps := (pathComponents value).map fun comp => String.mk comp
  if comps.isEmpty && (pathRoot value).isEmpty then "."
  else pathRoot value ++ String.intercalate "/" comps

/-- `PurePosixPath(value).name`: the final retained component, `""` if none. -/
def pathName (value : String) : List Char :=
  ((pathComponents value).getLast?).getD []

/-- Index of the last occurrence of `c`, mirroring `str.rfind`. -/
def lastIdxOf (c : Char) : List Char → Option Nat
  | [] => none
  | x :: rest =>
      match lastIdxOf c rest with
      | some i => some (i + 1)
      | none => if x = c then some 0 else none

/-- `PurePosixPath(value).suffix`: `name[i:]` for the last dot index `i`
when `0 < i < len(name) - 1`, else `""`. -/
def pathSuffix (value : String) : String :=
  let name := pathName value
  match lastIdxOf '.' name with
  | some i => if 0 < i ∧ i + 1 < name.length then String.mk (name.drop i) else ""
  | none => ""

/-! ## Filesystem model -/

/-- Data stored at a path: a text file or a written WAV buffer. -/
inductive FileData where
  | text (contents : String)
  | wav (samples : List Int)
deriving DecidableEq

/-- A filesystem: a map from normalized path strings to file data.
A path with no entry names no regular file (absent, or a directory). -/
structure FS where
  files : String → Option FileData

/-- `Path(p).is_file()`. -/
def FS.isFile (fs : FS) (p : String) : Bool :=
  (fs.files (normalizePath p)).isSome

/-- `Path(p).read_text()` on a text file; contents are abstract strings,
so the read itself is total in the model. -/
def FS.readTextD (fs : FS) (p : String) : String :=
  match fs.files (normalizePath p) with
  | some (.text s) => s
  | _ => ""

/-- Overwrite (or create) the file at `p`, as `soundfile.write` does. -/
def FS.write (fs : FS) (p : String) (d : FileData) : FS :=
  ⟨fun q => if q = normalizePath p then some d else fs.files q⟩

/-- The empty filesystem. -/
def FS.empty : FS := ⟨fun _ => none⟩

/-- Python `str.strip()` restricted to ASCII whitespace. -/
def isPySpace (c : Char) : Bool :=
  c = ' ' || c = '\t' || c = '\n' || c = '\r' || c = '\x0b' || c = '\x0c'

/-- Surrounding-whitespace trim used by the resolver (`.strip()`). -/
def pyStrip (s : String) : String :=
  String.mk (((s.toList.dropWhile isPySpace).reverse.dropWhile isPySpace).reverse)

/-! ## Input Resolver (`_read_file_or_string`) -/

/-- `_read_file_or_string(value)`: if `Path(value).suffix == ".txt"` and
`Path(value).is_file()`, return the file's stripped contents; otherwise
return `value` unchanged. -/
def readFileOrString (fs : FS) (value : String) : String :=
  if pathSuffix value = ".txt" ∧ fs.isFile value then
    pyStrip (fs.readTextD value)
  else
    value

/-! ## Mode/Model Registry (`MODELS`) and model sizes -/

/-- The `ModelSize` enum: CLI values `"0.6B"` (small) and `"1.7B"` (large). -/
inductive ModelSize where
  | small
  | large
deriving DecidableEq

/-- The string value of a `ModelSize` member. -/
def ModelSize.value : ModelSize → String
  | .small => "0.6B"
  | .large => "1.7B"

/-- The static `MODELS` dict-of-dicts; `none` models the `KeyError`
(`ConfigurationError` in the spec) raised on a missing (mode, size) pair. -/
def MODELS (mode size : String) : Option String :=
  if mode = "clone" then
    if size = "0.6B" then some "mlx-community/Qwen3-TTS-12Hz-0.6B-Base-bf16"
    else if size = "1.7B" then some "mlx-community/Qwen3-TTS-12Hz-1.7B-Base-bf16"
    else none
  else if mode = "custom" then
    if size = "0.6B" then some "mlx-community/Qwen3-TTS-12Hz-0.6B-CustomVoice-bf16"
    else if size = "1.7B" then some "mlx-community/Qwen3-TTS-12Hz-1.7B-CustomVoice-bf16"
    else none
  else if mode = "design" then
    if size = "1.7B" then some "mlx-community/Qwen3-TTS-12Hz-1.7B-VoiceDesign-bf16"
    else none
  else none

/-! ## Generation parameters, events, and run outcomes -/

/-- The keyword arguments each command passes to `model.generate(**kwargs)`.
A key not passed at all is `none`; `custom` may pass `instruct=None`
explicitly, which is also `none` here (Python draws no distinction at the
call site). -/
structure GenParams where
  text : Option String := none
  refAudio : Option String := none
  refText : Option String := none
  voice : Option String := none
  instruct : Option String := none
  langCode : Option String := none
deriving DecidableEq

/-- Observable steps of one invocation, in program order. -/
inductive Event where
  /-- The non-Apple-Silicon warning from `_check_apple_silicon`. -/
  | printWarning
  /-- Entering a `console.status(msg)` context. -/
  | status (msg : String)
  /-- The `Mode … | model …` console line of a command. -/
  | printModeLine (mode : String) (modelId : String)
  /-- The voice/instruct preview console line. -/
  | printPreview (s : String)
  /-- A `console.print` of an error message. -/
  | printError (msg : String)
  /-- The final `Saved: …` console line with the reported duration. -/
  | printSaved (output : String) (duration : ℚ)
  /-- The call to `mlx_audio.tts.utils.load_model(modelId)`. -/
  | loadModel (modelId : String)
  /-- `t0 = time.perf_counter()`. -/
  | startTimer
  /-- `elapsed = time.perf_counter() - t0`. -/
  | stopTimer
  /-- The call to `model.generate(**kwargs)`. -/
  | generateCall (p : GenParams)
  /-- One loop iteration appending a yielded chunk. -/
  | consumeChunk (chunk : List Int)
  /-- `np.concatenate(audio_chunks)`. -/
  | concatenate
  /-- `sf.write(str(output), audio, SAMPLE_RATE)`. -/
  | writeFile (path : String)
deriving DecidableEq

/-- The report printed on success. -/
structure GenReport where
  output : String
  duration : ℚ
deriving DecidableEq

/-- How an invocation ends: normal return with a report, `typer.Exit code`,
or an uncaught exception propagating out of the wrapper. -/
inductive ExitResult where
  | ok (report : GenReport)
  | exit (code : Nat)
  | exn (msg : String)
deriving DecidableEq

/-- Final filesystem, event trace (program order) and result of a run. -/
structure RunOut where
  fs : FS
  trace : List Event
  result : ExitResult

/-- The behaviour of the external generator for one call: the finite list of
chunks it yields, then optionally an exception it raises after the last
yielded chunk (`none` = normal exhaustion). -/
abbrev GenStream := List (List Int) × Option String

/-! ## Generation Pipeline (`_generate_and_save`) -/

/-- `_generate_and_save(model, output, **gen_kwargs)`: consume the generator
chunk by chunk inside the `Generating audio…` status, stop the timer, exit
with code 1 when no chunk was yielded, else concatenate, write the WAV and
print the report.  An exception from the generator propagates before the
timer stop and before any write. -/
def generateAndSave (fs : FS) (output : String) (p : GenParams)
    (stream : GenStream) : RunOut :=
  let pre : List Event :=
    [.status "Generating audio…", .startTimer, .generateCall p]
  match stream with
  | (chunks, some e) =>
      { fs := fs
        trace := pre ++ chunks.map Event.consumeChunk
        result := .exn e }
  | (chunks, none) =>
      let tr := pre ++ chunks.map Event.consumeChunk ++ [.stopTimer]
      if chunks.isEmpty then
        { fs := fs
          trace := tr ++ [.printError "No audio generated."]
          result := .exit 1 }
      else
        let audio := chunks.flatten
        let duration : ℚ := (audio.length : ℚ) / (SAMPLE_RATE : ℚ)
        { fs := fs.write output (.wav audio)
          trace := tr ++ [.concatenate, .writeFile output,
                          .printSaved output duration]
          result := .ok { output := output, duration := duration } }

/-! ## Platform check (`_check_apple_silicon`) -/

/-- `_check_apple_silicon()`: prints a warning when `platform.machine()` is
not in `("arm64", "aarch64")`; its body contains no raise or exit, so it
only yields console events. -/
def checkAppleSilicon (machine : String) : List Event :=
  if machine ∈ ["arm64", "aarch64"] then []
  else [.printWarning]

/-! ## Command surfaces -/

/-- CLI arguments of `clone` (defaults as declared in the script). -/
structure CloneArgs where
  text : String
  refAudio : String
  refText : String
  output : String := "output_clone.wav"
  modelSize : ModelSize := .large

/-- The kwargs `clone` passes to generation. -/
def cloneGenParams (args : CloneArgs) : GenParams :=
  { text := some args.text
    refAudio := some args.refAudio
    refText := some args.refText }

/-- The `clone` command: platform check, `ref_audio.is_file()` validation
(exit 1 with `Reference audio not found` when it fails), registry lookup,
mode line, model load (status then load), then the pipeline. -/
def cloneCmd (machine : String) (fs : FS) (args : CloneArgs)
    (stream : GenStream) : RunOut :=
  let warn := checkAppleSilicon machine
  if ! fs.isFile args.refAudio then
    { fs := fs
      trace := warn ++ [.printError ("Reference audio not found: " ++ args.refAudio)]
      result := .exit 1 }
  else
    match MODELS "clone" args.modelSize.value with
    | none =>
        { fs := fs, trace := warn, result := .exn "KeyError" }
    | some modelId =>
        let gen := generateAndSave fs args.output (cloneGenParams args) stream
        { fs := gen.fs
          trace := warn ++ [.printModeLine "clone" modelId,
                            .status "Loading model…", .loadModel modelId]
                   ++ gen.trace
          result := gen.result }

/-- CLI arguments of `design` (defaults as declared in the script). -/
structure DesignArgs where
  text : String
  voice : String := "A warm, friendly female voice with clear enunciation."
  language : String := "English"
  output : String := "output_design.wav"

/-- The kwargs `design` passes to generation: the voice description resolved
through the Input Resolver becomes `instruct`. -/
def designGenParams (fs : FS) (args : DesignArgs) : GenParams :=
  { text := some args.text
    instruct := some (readFileOrString fs args.voice)
    langCode := some args.language }

/-- The `design` command: platform check, resolve the voice description,
fixed `MODELS["design"]["1.7B"]` lookup, mode and preview lines, model
load, then the pipeline. -/
def designCmd (machine : String) (fs : FS) (args : DesignArgs)
    (stream : GenStream) : RunOut :=
  let warn := checkAppleSilicon machine
  let voiceDesc := readFileOrString fs args.voice
  match MODELS "design" "1.7B" with
  | none =>
      { fs := fs, trace := warn, result := .exn "KeyError" }
  | some modelId =>
      let gen := generateAndSave fs args.output (designGenParams fs args) stream
      { fs := gen.fs
        trace := warn ++ [.printModeLine "design" modelId,
                          .printPreview voiceDesc,
                          .status "Loading model…", .loadModel modelId]
                 ++ gen.trace
        result := gen.result }

/-- CLI arguments of `custom` (defaults as declared in the script). -/
structure CustomArgs where
  text : String
  speaker : String := "Aiden"
  instruct : Option String := none
  language : String := "English"
  output : String := "output_custom.wav"
  modelSize : ModelSize := .large

/-- `instruct_text = None; if instruct: instruct_text =
_read_file_or_string(instruct)` — note Python truthiness: an empty string
provided on the command line leaves `instruct_text = None`. -/
def customInstructText (fs : FS) (instruct : Option String) : Option String :=
  match instruct with
  | none => none
  | some s => if s = "" then none else some (readFileOrString fs s)

/-- The kwargs `custom` passes to generation. -/
def customGenParams (fs : FS) (args : CustomArgs) : GenParams :=
  { text := some args.text
    voice := some args.speaker
    instruct := customInstructText fs args.instruct
    langCode := some args.language }

/-- The `custom` command: platform check, registry lookup, mode line,
optional instruct resolution and preview, model load, then the pipeline. -/
def customCmd (machine : String) (fs : FS) (args : CustomArgs)
    (stream : GenStream) : RunOut :=
  let warn := checkAppleSilicon machine
  match MODELS "custom" args.modelSize.value with
  | none =>
      { fs := fs, trace := warn, result := .exn "KeyError" }
  | some modelId =>
      let preview : List Event :=
        match customInstructText fs args.instruct with
        | some s => [.printPreview s]
        | none => []
      let gen := generateAndSave fs args.output (customGenParams fs args) stream
      { fs := gen.fs
        trace := warn ++ [.printModeLine "custom" modelId] ++ preview
                 ++ [.status "Loading model…", .loadModel modelId]
                 ++ gen.trace
        result := gen.result }

/-! ## Concrete filesystems used by witnesses -/

/-- A filesystem holding one text file `note.txt` with padded contents. -/
def fsNote : FS :=
  ⟨fun p => if p = "note.txt" then some (.text "  hello world \n") else none⟩

/-- A filesystem holding one text file `note.TXT` (uppercase extension). -/
def fsUpper : FS :=
  ⟨fun p => if p = "note.TXT" then some (.text "contents") else none⟩

/-! ## Theorems -/

/-- Helper: every event the platform check emits is the warning print. -/
theorem mem_checkAppleSilicon {machine : String} {e : Event}
    (h : e ∈ checkAppleSilicon machine) : e = .printWarning := by
  unfold checkAppleSilicon at h
  split_ifs at h with hm
  · exact absurd h (List.not_mem_nil e)
  · simpa using h

/-- Helper: the pipeline always records the `model.generate(**kwargs)` call
with exactly its keyword arguments. -/
theorem generateCall_mem (fs : FS) (out : String) (p : GenParams)
    (stream : GenStream) :
    Event.generateCall p ∈ (generateAndSave fs out p stream).trace := by
  obtain ⟨chunks, oe⟩ := stream
  cases oe with
  | some e => simp [generateAndSave]
  | none => by_cases h : chunks.isEmpty <;> simp [generateAndSave, h]

/-- Helper: the `clone` command on a missing reference audio file reduces to
the error run. -/
theorem cloneCmd_missing_eq (machine : String) (fs : FS) (args : CloneArgs)
    (stream : GenStream) (h : fs.isFile args.refAudio = false) :
    cloneCmd machine fs args stream
      = { fs := fs
          trace := checkAppleSilicon machine
                   ++ [.printError ("Reference audio not found: " ++ args.refAudio)]
          result := .exit 1 } := by
  simp [cloneCmd, h]

/-- Helper: a non-nil list is not `isEmpty`. -/
theorem isEmpty_false_of_ne_nil {α : Type} {l : List α} (h : l ≠ []) :
    l.isEmpty = false := by
  cases l with
  | nil => exact absurd rfl h
  | cons a t => rfl

/-- C1: for every finite sequence of N non-empty audio chunks of lengths
[L1..LN] yielded by generation, the pipeline writes at the output path the
in-order concatenation of the chunks, whose length is the sum of the Li,
and the reported duration equals sum(Li)/24000. -/
theorem pipeline_concat_length_duration (fs : FS) (out : String)
    (p : GenParams) (chunks : List (List Int))
    (hN : chunks ≠ []) (_hne : ∀ c ∈ chunks, c ≠ []) :
    (generateAndSave fs out p (chunks, none)).fs.files (normalizePath out)
        = some (.wav chunks.flatten) ∧
    chunks.flatten.length = (chunks.map List.length).sum ∧
    (generateAndSave fs out p (chunks, none)).result
      = .ok { output := out,
              duration := (((chunks.map List.length).sum : ℚ)
                            / (SAMPLE_RATE : ℚ)) } := by
  have hnem : chunks.isEmpty = false := isEmpty_false_of_ne_nil hN
  have hlen : chunks.flatten.length = (chunks.map List.length).sum :=
    List.length_flatten chunks
  refine ⟨?_, hlen, ?_⟩
  · simp [generateAndSave, hnem, FS.write]
  · simp [generateAndSave, hnem, hlen]

/-- C1 witness at chunks `[[1, 2], [3]]`. -/
theorem pipeline_concat_length_duration_witness :
    (([[1, 2], [3]] : List (List Int)) ≠ []) ∧
    (∀ c ∈ ([[1, 2], [3]] : List (List Int)), c ≠ []) ∧
    ((generateAndSave FS.empty "out.wav" {} ([[1, 2], [3]], none)).fs.files
        (normalizePath "out.wav")
      = some (.wav ([[1, 2], [3]] : List (List Int)).flatten) ∧
    ([[1, 2], [3]] : List (List Int)).flatten.length
      = (([[1, 2], [3]] : List (List Int)).map List.length).sum ∧
    (generateAndSave FS.empty "out.wav" {} ([[1, 2], [3]], none)).result
      = .ok { output := "out.wav",
              duration := (((([[1, 2], [3]] : List (List Int)).map
                              List.length).sum : ℚ) / (SAMPLE_RATE : ℚ)) }) :=
  ⟨by decide, by decide,
   pipeline_concat_length_duration FS.empty "out.wav" {} [[1, 2], [3]]
     (by decide) (by decide)⟩

/-- C2: when generation yields zero chunks, the pipeline exits with code 1
and leaves the filesystem — in particular the output path — unchanged. -/
theorem pipeline_empty_exit1_fs_unchanged (fs : FS) (out : String)
    (p : GenParams) :
    (generateAndSave fs out p ([], none)).result = .exit 1 ∧
    (generateAndSave fs out p ([], none)).fs = fs :=
  ⟨rfl, rfl⟩

/-- C3: the output file is written only after the full buffer is assembled:
every run either leaves the filesystem untouched, or succeeds and the only
change is the complete concatenated buffer at the output path.  In
particular no error run — exception during chunk retrieval, or empty
generation — ever writes partial output. -/
theorem pipeline_no_partial_output (fs : FS) (out : String) (p : GenParams)
    (stream : GenStream) :
    (generateAndSave fs out p stream).fs = fs ∨
    ∃ rep, (generateAndSave fs out p stream).result = .ok rep ∧
      (generateAndSave fs out p stream).fs
        = fs.write out (.wav stream.1.flatten) := by
  obtain ⟨chunks, oe⟩ := stream
  cases oe with
  | some e => exact Or.inl rfl
  | none =>
      by_cases h : chunks.isEmpty
      · left
        simp [generateAndSave, h]
      · right
        have hnem : chunks.isEmpty = false := eq_false_of_ne_true h
        exact ⟨{ output := out,
                 duration := ((chunks.flatten.length : ℚ) / (SAMPLE_RATE : ℚ)) },
               by simp [generateAndSave, hnem],
               by simp [generateAndSave, hnem]⟩

/-- C6 counterexample: the claim requires concatenation to happen before the
timer stop (step order consume → concatenate → stop timer → write).  In this
concrete successful run the trace places `stopTimer` (index 4) strictly
before `concatenate` (index 5), so the claimed order is false. -/
theorem pipeline_timer_order_counterexample :
    ¬ ((generateAndSave FS.empty "out.wav" {} ([[1]], none)).trace.indexOf
          Event.concatenate
        < (generateAndSave FS.empty "out.wav" {} ([[1]], none)).trace.indexOf
          Event.stopTimer) := by
  decide

/-- C6 (amended): the timer is stopped after all chunks are consumed and
before concatenation; the step order of a successful run is: status,
start timer, generate call, consume each chunk in order, stop timer,
concatenate, write file, print report. -/
theorem pipeline_trace_order (fs : FS) (out : String) (p : GenParams)
    (chunks : List (List Int)) (hN : chunks ≠ []) :
    (generateAndSave fs out p (chunks, none)).trace
      = [.status "Generating audio…", .startTimer, .generateCall p]
        ++ chunks.map Event.consumeChunk
        ++ [.stopTimer, .concatenate, .writeFile out,
            .printSaved out ((chunks.flatten.length : ℚ) / (SAMPLE_RATE : ℚ))] := by
  have hnem : chunks.isEmpty = false := isEmpty_false_of_ne_nil hN
  simp [generateAndSave, hnem]

/-- C6 amended witness at one chunk `[1]`. -/
theorem pipeline_trace_order_witness :
    (([[1]] : List (List Int)) ≠ []) ∧
    (generateAndSave FS.empty "o.wav" {} ([[1]], none)).trace
      = [.status "Generating audio…", .startTimer, .generateCall {}]
        ++ ([[1]] : List (List Int)).map Event.consumeChunk
        ++ [.stopTimer, .concatenate, .writeFile "o.wav",
            .printSaved "o.wav"
              ((([[1]] : List (List Int)).flatten.length : ℚ)
                / (SAMPLE_RATE : ℚ))] :=
  ⟨by decide, pipeline_trace_order FS.empty "o.wav" {} [[1]] (by decide)⟩

/-- C4: for every string value, if the value has the recognized text-file
extension and a file exists at that path, `resolve` returns the file's
contents with surrounding whitespace trimmed; for every other value it
returns the value unchanged.  `resolve` is a total function of the string
and the filesystem, so it never fails. -/
theorem resolver_spec (fs : FS) (value : String) :
    (pathSuffix value = ".txt" ∧ fs.isFile value = true →
      readFileOrString fs value = pyStrip (fs.readTextD value)) ∧
    (¬ (pathSuffix value = ".txt" ∧ fs.isFile value = true) →
      readFileOrString fs value = value) := by
  constructor
  · intro h
    simp [readFileOrString, h.1, h.2]
  · intro h
    rw [readFileOrString, if_neg]
    intro hc
    exact h ⟨hc.1, hc.2⟩

/-- C4 witness: `note.txt` resolves to trimmed file contents, `note.md`
falls through verbatim. -/
theorem resolver_spec_witness :
    (pathSuffix "note.txt" = ".txt" ∧ fsNote.isFile "note.txt" = true) ∧
    readFileOrString fsNote "note.txt" = pyStrip (fsNote.readTextD "note.txt") ∧
    ¬ (pathSuffix "note.md" = ".txt" ∧ fsNote.isFile "note.md" = true) ∧
    readFileOrString fsNote "note.md" = "note.md" :=
  ⟨⟨by decide, by decide⟩,
   (resolver_spec fsNote "note.txt").1 ⟨by decide, by decide⟩,
   by decide,
   (resolver_spec fsNote "note.md").2 (by decide)⟩

/-- C9: the only recognized extension is the exact, case-sensitive suffix
`".txt"`: any value whose path suffix is anything else is returned
verbatim, even when a readable file exists at that path. -/
theorem resolver_txt_only (fs : FS) (value : String)
    (h : pathSuffix value ≠ ".txt") :
    readFileOrString fs value = value := by
  rw [readFileOrString, if_neg]
  intro hc
  exact h hc.1

/-- C9 witness: `note.TXT` exists and is readable, yet is returned
verbatim because its suffix is not the lowercase `".txt"`. -/
theorem resolver_txt_only_witness :
    pathSuffix "note.TXT" ≠ ".txt" ∧
    fsUpper.isFile "note.TXT" = true ∧
    readFileOrString fsUpper "note.TXT" = "note.TXT" :=
  ⟨by decide, by decide, resolver_txt_only fsUpper "note.TXT" (by decide)⟩

/-- C5: `clone` with a `--ref-audio` path naming no existing file exits with
code 1 after printing `Reference audio not found`, with no model-load
status shown, no model load performed, and the filesystem untouched. -/
theorem clone_missing_ref_audio (machine : String) (fs : FS)
    (args : CloneArgs) (stream : GenStream)
    (h : fs.isFile args.refAudio = false) :
    (cloneCmd machine fs args stream).result = .exit 1 ∧
    Event.printError ("Reference audio not found: " ++ args.refAudio)
      ∈ (cloneCmd machine fs args stream).trace ∧
    (∀ id, Event.loadModel id ∉ (cloneCmd machine fs args stream).trace) ∧
    (∀ s, Event.status s ∉ (cloneCmd machine fs args stream).trace) ∧
    (cloneCmd machine fs args stream).fs = fs := by
  rw [cloneCmd_missing_eq machine fs args stream h]
  refine ⟨rfl, by simp, ?_, ?_, rfl⟩
  · intro id hmem
    rcases List.mem_append.1 hmem with hw | hl
    · exact absurd (mem_checkAppleSilicon hw) (by simp)
    · simp at hl
  · intro s hmem
    rcases List.mem_append.1 hmem with hw | hl
    · exact absurd (mem_checkAppleSilicon hw) (by simp)
    · simp at hl

/-- C5 witness: concrete `clone` invocation with a missing `ref.wav`. -/
theorem clone_missing_ref_audio_witness :
    (FS.empty.isFile "ref.wav" = false) ∧
    ((cloneCmd "arm64" FS.empty
        { text := "hi", refAudio := "ref.wav", refText := "r" }
        ([], none)).result = .exit 1 ∧
     Event.printError ("Reference audio not found: " ++ "ref.wav")
       ∈ (cloneCmd "arm64" FS.empty
            { text := "hi", refAudio := "ref.wav", refText := "r" }
            ([], none)).trace ∧
     (∀ id, Event.loadModel id ∉ (cloneCmd "arm64" FS.empty
            { text := "hi", refAudio := "ref.wav", refText := "r" }
            ([], none)).trace) ∧
     (∀ s, Event.status s ∉ (cloneCmd "arm64" FS.empty
            { text := "hi", refAudio := "ref.wav", refText := "r" }
            ([], none)).trace) ∧
     (cloneCmd "arm64" FS.empty
        { text := "hi", refAudio := "ref.wav", refText := "r" }
        ([], none)).fs = FS.empty) :=
  ⟨by decide,
   clone_missing_ref_audio "arm64" FS.empty
     { text := "hi", refAudio := "ref.wav", refText := "r" }
     ([], none) (by decide)⟩

/-- C7: every (mode, size) pair present in the registry maps to its
documented model identifier; every absent pair — e.g. design+small — yields
`none` (the `KeyError` the spec calls `ConfigurationError`); and the
`design` command always loads the large (1.7B) VoiceDesign identifier. -/
theorem registry_lookup :
    MODELS "clone" "0.6B" = some "mlx-community/Qwen3-TTS-12Hz-0.6B-Base-bf16" ∧
    MODELS "clone" "1.7B" = some "mlx-community/Qwen3-TTS-12Hz-1.7B-Base-bf16" ∧
    MODELS "custom" "0.6B" = some "mlx-community/Qwen3-TTS-12Hz-0.6B-CustomVoice-bf16" ∧
    MODELS "custom" "1.7B" = some "mlx-community/Qwen3-TTS-12Hz-1.7B-CustomVoice-bf16" ∧
    MODELS "design" "1.7B" = some "mlx-community/Qwen3-TTS-12Hz-1.7B-VoiceDesign-bf16" ∧
    (∀ mode size : String,
        (mode, size) ∉ ([("clone", "0.6B"), ("clone", "1.7B"),
                         ("custom", "0.6B"), ("custom", "1.7B"),
                         ("design", "1.7B")] : List (String × String)) →
        MODELS mode size = none) ∧
    (∀ (machine : String) (fs : FS) (args : DesignArgs) (stream : GenStream),
        Event.loadModel "mlx-community/Qwen3-TTS-12Hz-1.7B-VoiceDesign-bf16"
          ∈ (designCmd machine fs args stream).trace) := by
  refine ⟨rfl, rfl, rfl, rfl, rfl, ?_, ?_⟩
  · intro mode size h
    simp only [List.mem_cons, List.not_mem_nil, or_false, Prod.mk.injEq,
               not_or, not_and] at h
    unfold MODELS
    split_ifs with h1 h2 h3 h4 h5 h6 h7 <;> simp_all
  · intro machine fs args stream
    simp [designCmd, MODELS]

/-- C7 witness: the absent pair (design, 0.6B) yields `none`. -/
theorem registry_lookup_witness :
    (("design", "0.6B")
        ∉ ([("clone", "0.6B"), ("clone", "1.7B"),
            ("custom", "0.6B"), ("custom", "1.7B"),
            ("design", "1.7B")] : List (String × String))) ∧
    MODELS "design" "0.6B" = none :=
  ⟨by decide,
   registry_lookup.2.2.2.2.2.1 "design" "0.6B" (by decide)⟩

/-- C8 counterexample: invoking `custom` with `--instruct ""` (provided but
empty) is a generation call whose `instruct` keyword is `None`, not
`resolve("") = ""`: the generate call carrying the claim's parameters never
happens, while one carrying `instruct := none` does. -/
theorem custom_instruct_counterexample :
    Event.generateCall
        { text := some "hi", voice := some "Aiden",
          instruct := (some "").map (readFileOrString FS.empty),
          langCode := some "English" }
      ∉ (customCmd "arm64" FS.empty { text := "hi", instruct := some "" }
           ([], none)).trace ∧
    Event.generateCall
        { text := some "hi", voice := some "Aiden",
          instruct := none, langCode := some "English" }
      ∈ (customCmd "arm64" FS.empty { text := "hi", instruct := some "" }
           ([], none)).trace := by
  constructor <;> decide

/-- C8 (amended): `custom` always calls generation with exactly the
parameters text, speaker (as `voice`), instruct and language code — no
reference audio or transcript; the instruct parameter is the resolver
applied to `--instruct` when that option is provided and non-empty, and is
absent when the option is absent or the provided string is empty. -/
theorem custom_params (machine : String) (fs : FS) (args : CustomArgs)
    (stream : GenStream) :
    Event.generateCall (customGenParams fs args)
      ∈ (customCmd machine fs args stream).trace ∧
    (customGenParams fs args).text = some args.text ∧
    (customGenParams fs args).voice = some args.speaker ∧
    (customGenParams fs args).langCode = some args.language ∧
    (customGenParams fs args).refAudio = none ∧
    (customGenParams fs args).refText = none ∧
    (∀ s, args.instruct = some s → s ≠ "" →
        (customGenParams fs args).instruct = some (readFileOrString fs s)) ∧
    ((args.instruct = none ∨ args.instruct = some "") →
        (customGenParams fs args).instruct = none) := by
  refine ⟨?_, rfl, rfl, rfl, rfl, rfl, ?_, ?_⟩
  · obtain ⟨text, speaker, instruct, language, output, ms⟩ := args
    cases ms <;>
      simp [customCmd, MODELS, ModelSize.value, generateCall_mem]
  · intro s hs hne
    simp [customGenParams, customInstructText, hs, hne]
  · intro hcase
    rcases hcase with hn | he
    · simp [customGenParams, customInstructText, hn]
    · simp [customGenParams, customInstructText, he]

/-- C8 amended witness: a provided non-empty `--instruct` is resolved, and
the generate call with exactly these parameters appears in the trace. -/
theorem custom_params_witness :
    (some "style note" = some "style note" ∧ "style note" ≠ "" ∧
     (customGenParams FS.empty
        { text := "hi", instruct := some "style note" }).instruct
       = some (readFileOrString FS.empty "style note")) ∧
    Event.generateCall
        (customGenParams FS.empty { text := "hi", instruct := some "style note" })
      ∈ (customCmd "arm64" FS.empty { text := "hi", instruct := some "style note" }
           ([], none)).trace :=
  ⟨⟨rfl, by decide,
    (custom_params "arm64" FS.empty { text := "hi", instruct := some "style note" }
       ([], none)).2.2.2.2.2.2.1 "style note" rfl (by decide)⟩,
   (custom_params "arm64" FS.empty { text := "hi", instruct := some "style note" }
      ([], none)).1⟩

/-- C10: the platform check never aborts: for every machine string it emits
at most the warning print (and nothing on arm64/aarch64), and the result
and final filesystem of each of the three commands are independent of the
machine string — no command fails because of the host platform. -/
theorem platform_check_harmless (machine : String) :
    (checkAppleSilicon machine = [] ∨
     checkAppleSilicon machine = [.printWarning]) ∧
    (machine ∉ (["arm64", "aarch64"] : List String) →
        checkAppleSilicon machine = [.printWarning]) ∧
    (∀ (machine2 : String) (fs : FS) (args : CloneArgs) (stream : GenStream),
        (cloneCmd machine fs args stream).result
            = (cloneCmd machine2 fs args stream).result ∧
        (cloneCmd machine fs args stream).fs
            = (cloneCmd machine2 fs args stream).fs) ∧
    (∀ (machine2 : String) (fs : FS) (args : DesignArgs) (stream : GenStream),
        (designCmd machine fs args stream).result
            = (designCmd machine2 fs args stream).result ∧
        (designCmd machine fs args stream).fs
            = (designCmd machine2 fs args stream).fs) ∧
    (∀ (machine2 : String) (fs : FS) (args : CustomArgs) (stream : GenStream),
        (customCmd machine fs args stream).result
            = (customCmd machine2 fs args stream).result ∧
        (customCmd machine fs args stream).fs
            = (customCmd machine2 fs args stream).fs) := by
  refine ⟨?_, ?_, ?_, ?_, ?_⟩
  · unfold checkAppleSilicon
    split_ifs <;> simp
  · intro h
    simp [checkAppleSilicon, h]
  · intro m2 fs args stream
    by_cases h : fs.isFile args.refAudio <;>
      cases hm : MODELS "clone" args.modelSize.value <;>
        simp [cloneCmd, h, hm]
  · intro m2 fs args stream
    cases hm : MODELS "design" "1.7B" <;> simp [designCmd, hm]
  · intro m2 fs args stream
    cases hm : MODELS "custom" args.modelSize.value <;> simp [customCmd, hm]

/-- C10 witness: on `x86_64` the check only prints the warning. -/
theorem platform_check_harmless_witness :
    ("x86_64" ∉ (["arm64", "aarch64"] : List String)) ∧
    checkAppleSilicon "x86_64" = [.printWarning] :=
  ⟨by decide, (platform_check_harmless "x86_64").2.1 (by decide)⟩

end QwenTTS
